import Mathlib

/-!
Shallow embedding of the Wagtail stress-tester core
(src/streamlit_app.py and src/stress_test_simple.py).

Python strings are modelled as `List Char` (so slicing `[:n]` is
`List.take n`), floats appearing in the code (response times, the success
rate) as `ℚ`, and Python `None`-able fields as `Option`.

The network is external to the program, so each executor call is modelled
as a pure function of an extra argument: a `NetOutcome`, the behaviour of
the `requests` library on that call (either a response with a status code
and a body, or a raised exception), together with the elapsed wall-clock
time `time.time() - start_time` of the call.  The request-shaping inputs
(URL, payload, bearer token, headers) are kept as parameters for fidelity
to the source signatures, but they influence the call only through the
wire, i.e. through the `NetOutcome` argument.  `response.content` and
`response.text` are both drawn from the single body sequence of the
outcome (the byte/character decoding is the identity in this model).
-/

namespace StressTester

/-- The exceptions that `requests.get/post/put/delete` can raise, in the
order the source's `except` chain distinguishes them:
`requests.exceptions.Timeout`, `requests.exceptions.ConnectionError`,
any other `requests.exceptions.RequestException` (carrying its `str(e)`),
and any other `Exception` (carrying its `str(e)`). -/
inductive ExcKind where
  | timeout : ExcKind
  | connectionError : ExcKind
  | requestException (msg : List Char) : ExcKind
  | otherException (msg : List Char) : ExcKind
deriving DecidableEq, Repr

/-- Outcome of one call into the `requests` library: either an HTTP
response (status code and body) or a raised exception. -/
inductive NetOutcome where
  | resp (status : Nat) (body : List Char) : NetOutcome
  | exc (k : ExcKind) : NetOutcome
deriving DecidableEq, Repr

/-- Whether the call raised (did not complete as an HTTP exchange). -/
def NetOutcome.isExc : NetOutcome → Bool
  | .resp _ _ => false
  | .exc _ => true

/-- An HTTP response obtained through the `requests` stack carries a
positive status code: CPython's `http.client` rejects a status line whose
code is outside 100..999 with `BadStatusLine`, which surfaces as an
exception, never as a response object. -/
def NetOutcome.statusPos : NetOutcome → Prop
  | .resp s _ => 0 < s
  | .exc _ => True

/-- A raised exception renders to a non-empty description: `str(e)` of the
exceptions `requests` raises carries the failure description.  Only the
bare `RequestException` branch forwards `str(e)` verbatim; the other three
branches produce fixed or prefixed text. -/
def ExcKind.msgNonempty : ExcKind → Prop
  | .requestException msg => msg ≠ []
  | _ => True

instance : DecidablePred NetOutcome.statusPos := fun o => by
  cases o <;> simp [NetOutcome.statusPos] <;> infer_instance

instance : DecidablePred ExcKind.msgNonempty := fun k => by
  cases k <;> simp [ExcKind.msgNonempty] <;> infer_instance

/-- The dict returned by `streamlit_app.make_request`. -/
structure RequestResult where
  request_id : Nat
  status_code : Nat
  response_time : ℚ
  success : Bool
  error : Option (List Char)
  response_text : List Char
deriving DecidableEq, Repr

/-- The dict returned by `streamlit_app.load_page`: the same fields plus
`content_length`. -/
structure PageResult where
  request_id : Nat
  status_code : Nat
  response_time : ℚ
  success : Bool
  error : Option (List Char)
  response_text : List Char
  content_length : Nat
deriving DecidableEq, Repr

/-- The dict returned by `stress_test_simple.load_page`: no
`response_text`, but `content_length` is present. -/
structure CliResult where
  request_id : Nat
  status_code : Nat
  response_time : ℚ
  success : Bool
  error : Option (List Char)
  content_length : Nat
deriving DecidableEq, Repr

/-- The methods `make_request` dispatches on; any other falls to
`raise ValueError(f"Unsupported method: {method}")`. -/
def supportedMethods : List String := ["GET", "POST", "PUT", "DELETE"]

/-- The `error` string assigned by `make_request`'s `except` chain. -/
def makeExcError : ExcKind → List Char
  | .timeout => "Request timeout".data
  | .connectionError => "Connection error".data
  | .requestException msg => msg
  | .otherException msg => "Unexpected error: ".data ++ msg

/-- The `error` string assigned by the `except` chain shared by
`streamlit_app.load_page` and `stress_test_simple.load_page` (their
timeout message differs from `make_request`'s). -/
def pageExcError : ExcKind → List Char
  | .timeout => "Page load timeout (60s)".data
  | .connectionError => "Connection error".data
  | .requestException msg => msg
  | .otherException msg => "Unexpected error: ".data ++ msg

/-- `streamlit_app.make_request`: perform one HTTP call with a 30s timeout
and build the result dict.  For a supported method the try-block runs the
call (its behaviour is the `outcome` argument) and on a response sets
`status_code`, `response_text = response.text[:500]` and
`success = status_code < 400`; for an unsupported method the try-block
raises `ValueError(f"Unsupported method: {method}")`, which the final
`except Exception` clause converts to an `error` string, before any call
is made.  Every raised exception leaves the initial values
`status_code = 0`, `success = False`, `response_text = ""` and sets only
`error`.  `base_url`, `endpoint`, `payload` and `auth_token` shape the
outgoing request (URL, JSON body, `Authorization` header) and reach the
result only through `outcome`. -/
def make_request (base_url endpoint : String) (method : String)
    (payload : Option (List Char)) (auth_token : Option (List Char))
    (request_id : Nat) (elapsed : ℚ) (outcome : NetOutcome) : RequestResult :=
  if method ∈ supportedMethods then
    match outcome with
    | .resp s body =>
        { request_id := request_id
          status_code := s
          response_time := elapsed
          success := decide (s < 400)
          error := none
          response_text := body.take 500 }
    | .exc k =>
        { request_id := request_id
          status_code := 0
          response_time := elapsed
          success := false
          error := some (makeExcError k)
          response_text := [] }
  else
    { request_id := request_id
      status_code := 0
      response_time := elapsed
      success := false
      error := some ("Unexpected error: Unsupported method: ".data ++ method.data)
      response_text := [] }

/-- `streamlit_app.load_page`: one GET of the full page with a 60s timeout
and redirects followed.  On a response it sets `status_code`,
`content_length = len(response.content)`,
`response_text = response.text[:1000]` and `success = status_code < 400`;
on a raised exception the initial values `status_code = 0`,
`success = False`, `response_text = ""`, `content_length = 0` survive and
only `error` is set. -/
def load_page (page_url : String) (auth_token : Option (List Char))
    (request_id : Nat) (elapsed : ℚ) (outcome : NetOutcome) : PageResult :=
  match outcome with
  | .resp s body =>
      { request_id := request_id
        status_code := s
        response_time := elapsed
        success := decide (s < 400)
        error := none
        response_text := body.take 1000
        content_length := body.length }
  | .exc k =>
      { request_id := request_id
        status_code := 0
        response_time := elapsed
        success := false
        error := some (pageExcError k)
        response_text := []
        content_length := 0 }

/-- `stress_test_simple.load_page`: same logic as the streamlit
`load_page` but the result dict has no `response_text`. -/
def cli_load_page (page_url : String) (request_id : Nat) (elapsed : ℚ)
    (outcome : NetOutcome) : CliResult :=
  match outcome with
  | .resp s body =>
      { request_id := request_id
        status_code := s
        response_time := elapsed
        success := decide (s < 400)
        error := none
        content_length := body.length }
  | .exc k =>
      { request_id := request_id
        status_code := 0
        response_time := elapsed
        success := false
        error := some (pageExcError k)
        content_length := 0 }

/-- Observable actions of the submission loops, in program order:
`time.sleep(delay_ms / 1000.0)` and `executor.submit(..., request_id=i+1)`. -/
inductive Event where
  | sleep (ms : Nat) : Event
  | submit (request_id : Nat) : Event
deriving DecidableEq, Repr

/-- Whether an event is a `time.sleep`. -/
def Event.isSleep : Event → Bool
  | .sleep _ => true
  | .submit _ => false

/-- The request id of a submission event, if any. -/
def Event.submitId : Event → Option Nat
  | .sleep _ => none
  | .submit j => some j

/-- The submission loop shared verbatim by `run_stress_test` and
`run_page_load_test` (`stress_test_simple.run_stress_test` has the same
loop without the delay lines, i.e. with `delay_ms = 0`):
`for i in range(num_requests): if delay_ms > 0 and i > 0:
time.sleep(delay_ms / 1000.0); executor.submit(..., request_id=i+1)`. -/
def interSubmissionTrace (num_requests delay_ms : Nat) : List Event :=
  (List.range num_requests).flatMap fun i =>
    (if 0 < delay_ms ∧ 0 < i then [Event.sleep delay_ms] else []) ++ [Event.submit (i + 1)]

/-- `streamlit_app.run_stress_test`: submit `num_requests` calls to
`make_request` into a `ThreadPoolExecutor(max_workers=concurrent_workers)`
with `request_id = i + 1` in submission order, sleeping `delay_ms` before
every submission after the first when `delay_ms > 0`, then append each
future's result as `as_completed` yields it.  `concurrent_workers` bounds
how many calls are in flight, and so — together with the per-call
latencies — determines only the order in which the futures complete;
which outcome each call sees is the `env` argument (indexed by
request id), and the completion order delivered by `as_completed` is the
`order` argument (a sequence of future indices).  Returns the trace of
the submission loop and the collected result list. -/
def run_stress_test (base_url endpoint : String) (num_requests : Nat)
    (concurrent_workers : Nat) (method : String) (payload : Option (List Char))
    (auth_token : Option (List Char)) (delay_ms : Nat)
    (env : Nat → ℚ × NetOutcome) (order : List (Fin num_requests)) :
    List Event × List RequestResult :=
  (interSubmissionTrace num_requests delay_ms,
   order.map fun i =>
     make_request base_url endpoint method payload auth_token (i.val + 1)
       (env (i.val + 1)).1 (env (i.val + 1)).2)

/-- `streamlit_app.run_page_load_test`: the same loop as
`run_stress_test` but submitting `load_page`. -/
def run_page_load_test (page_url : String) (num_requests : Nat)
    (concurrent_workers : Nat) (auth_token : Option (List Char)) (delay_ms : Nat)
    (env : Nat → ℚ × NetOutcome) (order : List (Fin num_requests)) :
    List Event × List PageResult :=
  (interSubmissionTrace num_requests delay_ms,
   order.map fun i =>
     load_page page_url auth_token (i.val + 1)
       (env (i.val + 1)).1 (env (i.val + 1)).2)

/-- `stress_test_simple.run_stress_test`: the same loop with no delay
lines, submitting `stress_test_simple.load_page`. -/
def cli_run_stress_test (page_url : String) (num_requests : Nat)
    (concurrent_workers : Nat) (env : Nat → ℚ × NetOutcome)
    (order : List (Fin num_requests)) : List CliResult :=
  order.map fun i =>
    cli_load_page page_url (i.val + 1)
      (env (i.val + 1)).1 (env (i.val + 1)).2

/-- `request_payload` as computed at module top level of
`streamlit_app.py`: starts as `None`; when the mode is "API Endpoint" and
the method is POST or PUT it becomes `json.loads(payload_text)`, except
that a `json.JSONDecodeError` shows `st.sidebar.error("Invalid JSON
payload")` and leaves it `None`.  The `parse` argument is the outcome of
`json.loads` on the entered text: `some v` on success, `none` when it
raises.  The parsed JSON value itself is opaque to every claim and is
kept as the raw text. -/
def request_payload (test_mode : String) (method : String)
    (parse : Option (List Char)) : Option (List Char) :=
  if test_mode = "API Endpoint" ∧ (method = "POST" ∨ method = "PUT") then parse
  else none

/-- What pressing "Start Stress Test" leads to. -/
inductive RunOutcome where
  | configError : RunOutcome
  | ran (results : List RequestResult) : RunOutcome
  | ranPage (results : List PageResult) : RunOutcome
deriving DecidableEq, Repr

/-- The button handler of the Run Test tab (`streamlit_app.py` lines
143-168): `st.error` when the API mode misses a base URL or endpoint, or
when `test_mode == "Page Load"` with no page URL (note the source
compares against the literal "Page Load" although the radio options are
"API Endpoint" and "Page Load (Embedded)"); otherwise run the selected
test and store its results. -/
def startTest (test_mode : String) (base_url api_endpoint page_url : String)
    (num_requests : Nat) (concurrent_workers : Nat) (method : String)
    (payload : Option (List Char)) (auth_token : Option (List Char))
    (delay_ms : Nat) (env : Nat → ℚ × NetOutcome)
    (order : List (Fin num_requests)) : RunOutcome :=
  if test_mode = "API Endpoint" ∧ (base_url = "" ∨ api_endpoint = "") then
    .configError
  else if test_mode = "Page Load" ∧ page_url = "" then
    .configError
  else if test_mode = "API Endpoint" then
    .ran (run_stress_test base_url api_endpoint num_requests concurrent_workers
      method payload auth_token delay_ms env order).2
  else
    .ranPage (run_page_load_test page_url num_requests concurrent_workers
      auth_token delay_ms env order).2

/-- Python float division, which raises `ZeroDivisionError` on a zero
divisor: `none` stands for the raised error. -/
def pyDiv (a b : ℚ) : Option ℚ :=
  if b = 0 then none else some (a / b)

/-- `total_requests = len(results)` of the Results tab. -/
def total_requests (results : List RequestResult) : Nat :=
  results.length

/-- `successful = sum(1 for r in results if r['status_code'] < 400)` of
the Results tab (`streamlit_app.py` line 198). -/
def successful_app (results : List RequestResult) : Nat :=
  results.countP fun r => decide (r.status_code < 400)

/-- `failed = total_requests - successful` of the Results tab. -/
def failed_app (results : List RequestResult) : Nat :=
  total_requests results - successful_app results

/-- `success_rate = (successful / total_requests * 100) if total_requests
> 0 else 0` of the Results tab, with the division modelled as `pyDiv`. -/
def success_rate_app (results : List RequestResult) : Option ℚ :=
  if 0 < total_requests results then
    (pyDiv (successful_app results : ℚ) (total_requests results : ℚ)).map fun q => q * 100
  else some 0

/-- `total = len(results)` of `stress_test_simple.print_results`. -/
def total_cli (results : List CliResult) : Nat :=
  results.length

/-- `successful = sum(1 for r in results if r['success'])` of
`stress_test_simple.print_results` (line 84). -/
def successful_cli (results : List CliResult) : Nat :=
  results.countP fun r => r.success

/-- `failed = total - successful` of `print_results`. -/
def failed_cli (results : List CliResult) : Nat :=
  total_cli results - successful_cli results

/-- `success_rate = (successful / total * 100) if total > 0 else 0` of
`print_results`, with the division modelled as `pyDiv`. -/
def success_rate_cli (results : List CliResult) : Option ℚ :=
  if 0 < total_cli results then
    (pyDiv (successful_cli results : ℚ) (total_cli results : ℚ)).map fun q => q * 100
  else some 0

/-! ### Helper lemmas -/

/-- `make_request` copies its `request_id` argument into the result in
every branch. -/
@[simp]
theorem make_request_request_id (b e m : String) (p a : Option (List Char))
    (rid : Nat) (t : ℚ) (o : NetOutcome) :
    (make_request b e m p a rid t o).request_id = rid := by
  unfold make_request
  split <;> cases o <;> rfl

/-- `load_page` copies its `request_id` argument into the result. -/
@[simp]
theorem load_page_request_id (u : String) (a : Option (List Char))
    (rid : Nat) (t : ℚ) (o : NetOutcome) :
    (load_page u a rid t o).request_id = rid := by
  cases o <;> rfl

/-- `cli_load_page` copies its `request_id` argument into the result. -/
@[simp]
theorem cli_load_page_request_id (u : String) (rid : Nat) (t : ℚ)
    (o : NetOutcome) :
    (cli_load_page u rid t o).request_id = rid := by
  cases o <;> rfl

/-- A duplicate-free list over `Fin n` that contains every element has
length `n`: this is what `as_completed` guarantees about the completion
order when the run is not cancelled. -/
theorem order_length {n : Nat} (order : List (Fin n)) (hnd : order.Nodup)
    (hall : ∀ i, i ∈ order) : order.length = n := by
  have hcard : order.toFinset = Finset.univ :=
    Finset.eq_univ_iff_forall.2 fun i => List.mem_toFinset.2 (hall i)
  have := List.toFinset_card_of_nodup hnd
  rw [hcard] at this
  simpa using this.symm

/-- Mapping `i ↦ i + 1` over a duplicate-free completion order keeps it
duplicate-free. -/
theorem order_ids_nodup {n : Nat} (order : List (Fin n)) (hnd : order.Nodup) :
    (order.map fun i => i.val + 1).Nodup := by
  refine hnd.map ?_
  intro i j hij
  have h2 : i.val + 1 = j.val + 1 := hij
  exact Fin.ext (by omega)

/-- If the completion order contains every future, the mapped ids are
exactly 1..n. -/
theorem order_ids_mem {n : Nat} (order : List (Fin n))
    (hall : ∀ i, i ∈ order) (k : Nat) :
    k ∈ order.map (fun i => i.val + 1) ↔ 1 ≤ k ∧ k ≤ n := by
  simp only [List.mem_map]
  constructor
  · rintro ⟨i, -, rfl⟩
    have := i.isLt
    omega
  · rintro ⟨h1, h2⟩
    refine ⟨⟨k - 1, by omega⟩, hall _, ?_⟩
    show k - 1 + 1 = k
    omega

/-- Unfolding of the submission trace at a successor request count. -/
theorem interSubmissionTrace_succ (n d : Nat) :
    interSubmissionTrace (n + 1) d =
      interSubmissionTrace n d ++
        ((if 0 < d ∧ 0 < n then [Event.sleep d] else []) ++ [Event.submit (n + 1)]) := by
  unfold interSubmissionTrace
  rw [List.range_succ, List.flatMap_append]
  simp

/-- With a positive delay, the submission trace is one plain first
submission followed by (sleep, submit) pairs for ids 2..n+1. -/
theorem interSubmissionTrace_shape (m d : Nat) (hd : 0 < d) :
    interSubmissionTrace (m + 1) d =
      Event.submit 1 ::
        (List.range m).flatMap fun j => [Event.sleep d, Event.submit (j + 2)] := by
  induction m with
  | zero =>
      simp [interSubmissionTrace, List.range_succ]
  | succ k ih =>
      rw [interSubmissionTrace_succ, ih, List.range_succ, List.flatMap_append]
      simp [hd]

/-- The (sleep, submit) pair blocks contain one sleep each. -/
theorem countP_pairs_sleep (m d : Nat) :
    (((List.range m).flatMap fun j => [Event.sleep d, Event.submit (j + 2)]).countP
      Event.isSleep) = m := by
  induction m with
  | zero => rfl
  | succ k ih =>
      rw [List.range_succ, List.flatMap_append, List.countP_append, ih]
      rfl

/-- The submission ids of the trace, in order, are 1..n: `request_id` is
assigned by submission order regardless of the delay setting. -/
theorem interSubmissionTrace_submitIds (n d : Nat) :
    (interSubmissionTrace n d).filterMap Event.submitId =
      (List.range n).map fun i => i + 1 := by
  induction n with
  | zero => rfl
  | succ k ih =>
      rw [interSubmissionTrace_succ, List.filterMap_append, ih, List.range_succ,
        List.map_append]
      congr 1
      split <;> rfl

/-- The error string produced by `make_request` for a raised exception is
non-empty whenever the exception renders non-empty. -/
theorem makeExcError_ne_nil (k : ExcKind) (hk : k.msgNonempty) :
    makeExcError k ≠ [] := by
  cases k with
  | timeout => simp [makeExcError]
  | connectionError => simp [makeExcError]
  | requestException msg => exact hk
  | otherException msg => simp [makeExcError]

/-- The error string produced by the two `load_page` variants for a raised
exception is non-empty whenever the exception renders non-empty. -/
theorem pageExcError_ne_nil (k : ExcKind) (hk : k.msgNonempty) :
    pageExcError k ≠ [] := by
  cases k with
  | timeout => simp [pageExcError]
  | connectionError => simp [pageExcError]
  | requestException msg => exact hk
  | otherException msg => simp [pageExcError]

/-! ### Claim theorems -/

/-- C2: for every result produced by the executor (`make_request` or
`load_page`), `success` is true iff `0 < status_code < 400`; in
particular every result with `status_code = 0` has `success = false`.
The hypothesis `outcome.statusPos` records the guarantee of the HTTP
stack that a delivered response carries a positive status code. -/
theorem C2_success_iff_status (b e m u : String) (p a : Option (List Char))
    (rid : Nat) (t : ℚ) (o : NetOutcome) (ho : o.statusPos) :
    ((make_request b e m p a rid t o).success = true ↔
        0 < (make_request b e m p a rid t o).status_code ∧
          (make_request b e m p a rid t o).status_code < 400)
    ∧ ((load_page u a rid t o).success = true ↔
        0 < (load_page u a rid t o).status_code ∧
          (load_page u a rid t o).status_code < 400)
    ∧ ((make_request b e m p a rid t o).status_code = 0 →
        (make_request b e m p a rid t o).success = false)
    ∧ ((load_page u a rid t o).status_code = 0 →
        (load_page u a rid t o).success = false) := by
  have hmk : (make_request b e m p a rid t o).success = true ↔
      0 < (make_request b e m p a rid t o).status_code ∧
        (make_request b e m p a rid t o).status_code < 400 := by
    unfold make_request
    split
    · cases o with
      | resp s body =>
          simp only [NetOutcome.statusPos] at ho
          simp [ho]
      | exc k => simp
    · simp
  have hld : (load_page u a rid t o).success = true ↔
      0 < (load_page u a rid t o).status_code ∧
        (load_page u a rid t o).status_code < 400 := by
    cases o with
    | resp s body =>
        simp only [NetOutcome.statusPos] at ho
        simp [load_page, ho]
    | exc k => simp [load_page]
  refine ⟨hmk, hld, ?_, ?_⟩
  · intro h0
    cases hs : (make_request b e m p a rid t o).success with
    | false => rfl
    | true =>
        have := hmk.1 hs
        omega
  · intro h0
    cases hs : (load_page u a rid t o).success with
    | false => rfl
    | true =>
        have := hld.1 hs
        omega

/-- Witness for C2 at a concrete successful exchange. -/
theorem C2_success_iff_status_witness :
    (make_request "http://localhost:8000" "/api/v2/pages/" "GET" none none 1 0
      (.resp 200 "ok".data)).success = true :=
  ((C2_success_iff_status "http://localhost:8000" "/api/v2/pages/" "GET" "u" none none
    1 0 (.resp 200 "ok".data) (by decide)).1).mpr (by decide)

/-- C4: every network-level failure (any constructor of `ExcKind`, which
covers the full `except` chain ending in `except Exception`) is absorbed
inside the executor and recorded as a result with `status_code = 0` and a
non-empty `error`; `error` is populated iff the call did not complete as
an HTTP exchange.  The executors are total functions of the outcome, so
no exception propagates to the caller.  The hypothesis `k.msgNonempty`
records that `str(e)` of a raised exception is non-empty (only the bare
`RequestException` branch forwards it verbatim). -/
theorem C4_failures_absorbed (b e m u : String) (p a : Option (List Char))
    (rid : Nat) (t : ℚ) (o : NetOutcome) (k : ExcKind)
    (hm : m ∈ supportedMethods) (hk : k.msgNonempty) :
    ((make_request b e m p a rid t (.exc k)).status_code = 0
      ∧ ∃ s, (make_request b e m p a rid t (.exc k)).error = some s ∧ s ≠ [])
    ∧ ((make_request b e m p a rid t o).error.isSome = true ↔ o.isExc = true)
    ∧ ((load_page u a rid t (.exc k)).status_code = 0
      ∧ ∃ s, (load_page u a rid t (.exc k)).error = some s ∧ s ≠ [])
    ∧ ((load_page u a rid t o).error.isSome = true ↔ o.isExc = true) := by
  refine ⟨⟨?_, ?_⟩, ?_, ⟨rfl, ?_⟩, ?_⟩
  · unfold make_request
    simp [hm]
  · refine ⟨makeExcError k, ?_, makeExcError_ne_nil k hk⟩
    unfold make_request
    simp [hm]
  · unfold make_request
    cases o with
    | resp s body => simp [hm, NetOutcome.isExc]
    | exc k2 => simp [hm, NetOutcome.isExc]
  · exact ⟨pageExcError k, rfl, pageExcError_ne_nil k hk⟩
  · cases o with
    | resp s body => simp [load_page, NetOutcome.isExc]
    | exc k2 => simp [load_page, NetOutcome.isExc]

/-- Witness for C4 at a concrete timeout. -/
theorem C4_failures_absorbed_witness :
    ("GET" ∈ supportedMethods ∧ ExcKind.msgNonempty .timeout)
    ∧ (make_request "http://localhost:8000" "/api/v2/pages/" "GET" none none 1 0
        (.exc .timeout)).status_code = 0 :=
  ⟨⟨by decide, by decide⟩,
    (C4_failures_absorbed "http://localhost:8000" "/api/v2/pages/" "GET" "u" none none
      1 0 (.resp 200 []) .timeout (by decide) (by decide)).1.1⟩

/-- C8: for any method outside GET/POST/PUT/DELETE, `make_request` does
not raise to its caller and returns, independently of the network, a
result with `status_code = 0`, `success = false` and the error
"Unexpected error: Unsupported method: &lt;method&gt;". -/
theorem C8_unsupported_method (b e m : String) (p a : Option (List Char))
    (rid : Nat) (t : ℚ) (o : NetOutcome) (hm : m ∉ supportedMethods) :
    make_request b e m p a rid t o =
      { request_id := rid
        status_code := 0
        response_time := t
        success := false
        error := some ("Unexpected error: Unsupported method: ".data ++ m.data)
        response_text := [] } := by
  unfold make_request
  simp [hm]

/-- Witness for C8 at method "PATCH". -/
theorem C8_unsupported_method_witness :
    "PATCH" ∉ supportedMethods
    ∧ make_request "http://localhost:8000" "/api/v2/pages/" "PATCH" none none 1 0
        (.resp 200 []) =
      { request_id := 1
        status_code := 0
        response_time := 0
        success := false
        error := some ("Unexpected error: Unsupported method: ".data ++ "PATCH".data)
        response_text := [] } :=
  ⟨by decide,
    C8_unsupported_method "http://localhost:8000" "/api/v2/pages/" "PATCH" none none
      1 0 (.resp 200 []) (by decide)⟩

/-- C9: `make_request` previews are `response.text[:500]`, so at most 500
characters; `load_page` previews are `response.text[:1000]`, so at most
1000; on a failed call the preview keeps its initial value "". -/
theorem C9_preview_caps (b e m u : String) (p a : Option (List Char))
    (rid : Nat) (t : ℚ) (o : NetOutcome) (k : ExcKind) :
    (make_request b e m p a rid t o).response_text.length ≤ 500
    ∧ (load_page u a rid t o).response_text.length ≤ 1000
    ∧ (make_request b e m p a rid t (.exc k)).response_text = []
    ∧ (load_page u a rid t (.exc k)).response_text = [] := by
  refine ⟨?_, ?_, ?_, ?_⟩
  · unfold make_request
    split
    · cases o with
      | resp s body =>
          simp only [List.length_take]
          omega
      | exc k2 => simp
    · simp
  · cases o with
    | resp s body =>
        simp only [load_page, List.length_take]
        omega
    | exc k2 => simp [load_page]
  · unfold make_request
    split <;> rfl
  · rfl

/-- C10: in full-page mode `content_length` is a field of every result
(the `PageResult` and `CliResult` records both carry it, in both
`load_page` variants); a fetch that fails before a response yields
`content_length = 0`, the same value as a successful fetch of an empty
body — by that field alone the two are indistinguishable. -/
theorem C10_content_length_zero (u u2 : String) (a : Option (List Char))
    (rid : Nat) (t : ℚ) (k : ExcKind) (s : Nat) (body : List Char) :
    (load_page u a rid t (.exc k)).content_length = 0
    ∧ (load_page u a rid t (.resp s body)).content_length = body.length
    ∧ (cli_load_page u2 rid t (.exc k)).content_length = 0
    ∧ (cli_load_page u2 rid t (.resp s body)).content_length = body.length
    ∧ (load_page u a rid t (.resp 200 [])).success = true
    ∧ (load_page u a rid t (.resp 200 [])).content_length =
        (load_page u a rid t (.exc k)).content_length :=
  ⟨rfl, rfl, rfl, rfl, rfl, rfl⟩

/-- C1 (evaluation at the failing input): one collected result that is a
connection failure.  `make_request` records it with `status_code = 0` and
`success = false`, yet the Results tab counts it as successful — its line
198 tests `r['status_code'] < 400`, which `0` satisfies — so it reports
`successful = 1`, `failed = 0` and `success_rate = 100`, where the claim
requires `successful = 0`.  `print_results` of the command-line sibling
counts `r['success']` and yields `successful = 0`, `success_rate = 0` on
the corresponding input, as the claim states. -/
theorem C1_results_tab_counts_failure_as_success :
    (make_request "http://localhost:8000" "/api/v2/pages/" "GET" none none 1 0
      (.exc .connectionError)).success = false
    ∧ successful_app
        [make_request "http://localhost:8000" "/api/v2/pages/" "GET" none none 1 0
          (.exc .connectionError)] = 1
    ∧ success_rate_app
        [make_request "http://localhost:8000" "/api/v2/pages/" "GET" none none 1 0
          (.exc .connectionError)] = some 100
    ∧ (cli_load_page "http://localhost:8000/dashboard/test-dashboard/" 1 0
        (.exc .connectionError)).success = false
    ∧ successful_cli
        [cli_load_page "http://localhost:8000/dashboard/test-dashboard/" 1 0
          (.exc .connectionError)] = 0
    ∧ success_rate_cli
        [cli_load_page "http://localhost:8000/dashboard/test-dashboard/" 1 0
          (.exc .connectionError)] = some 0 := by
  refine ⟨rfl, rfl, ?_, rfl, rfl, ?_⟩
  · show (if 0 < 1 then (pyDiv 1 1).map fun q => q * 100 else some 0) = some 100
    norm_num [pyDiv]
  · show (if 0 < 1 then (pyDiv 0 1).map fun q => q * 100 else some 0) = some 0
    norm_num [pyDiv]

/-- C6: the success-rate computation of both reporters is guarded — it
never divides by zero (`pyDiv` never returns its error value `none`), it
is exactly 0 on an empty result list, and on a non-empty list it equals
`successful / total * 100` recomputed from the list. -/
theorem C6_success_rate_guarded (results : List RequestResult)
    (cli : List CliResult) :
    ((success_rate_app results).isSome = true
      ∧ (success_rate_cli cli).isSome = true)
    ∧ (results.length = 0 → success_rate_app results = some 0)
    ∧ (cli.length = 0 → success_rate_cli cli = some 0)
    ∧ (0 < results.length →
        success_rate_app results =
          some ((successful_app results : ℚ) / (results.length : ℚ) * 100))
    ∧ (0 < cli.length →
        success_rate_cli cli =
          some ((successful_cli cli : ℚ) / (cli.length : ℚ) * 100)) := by
  have happ : 0 < results.length →
      success_rate_app results =
        some ((successful_app results : ℚ) / (results.length : ℚ) * 100) := by
    intro h
    have hne : ((results.length : ℚ)) ≠ 0 := Nat.cast_ne_zero.2 (by omega)
    simp [success_rate_app, total_requests, pyDiv, h, hne]
  have hcli : 0 < cli.length →
      success_rate_cli cli =
        some ((successful_cli cli : ℚ) / (cli.length : ℚ) * 100) := by
    intro h
    have hne : ((cli.length : ℚ)) ≠ 0 := Nat.cast_ne_zero.2 (by omega)
    simp [success_rate_cli, total_cli, pyDiv, h, hne]
  have hz : results.length = 0 → success_rate_app results = some 0 := by
    intro h
    simp [success_rate_app, total_requests, h]
  have hzc : cli.length = 0 → success_rate_cli cli = some 0 := by
    intro h
    simp [success_rate_cli, total_cli, h]
  refine ⟨⟨?_, ?_⟩, hz, hzc, happ, hcli⟩
  · rcases Nat.eq_zero_or_pos results.length with h | h
    · rw [hz h]; rfl
    · rw [happ h]; rfl
  · rcases Nat.eq_zero_or_pos cli.length with h | h
    · rw [hzc h]; rfl
    · rw [hcli h]; rfl

/-- Witness for C6 at the empty result lists. -/
theorem C6_success_rate_guarded_witness :
    success_rate_app [] = some 0 ∧ success_rate_cli [] = some 0 :=
  ⟨(C6_success_rate_guarded [] []).2.1 rfl, (C6_success_rate_guarded [] []).2.2.1 rfl⟩

/-- C5: a run that completes without cancellation — `as_completed` yields
every submitted future exactly once, so the completion `order` is a
duplicate-free enumeration of all `n` futures — returns exactly `n`
results whose `request_id`s are pairwise distinct and form exactly the
set {1, ..., n}; and the submission events of the dispatch loop assign
`request_id`s 1..n in submission order.  This holds for the streamlit
dispatcher and for the command-line one. -/
theorem C5_completed_run_ids (b e u m : String) (n W W2 : Nat)
    (p a : Option (List Char)) (d : Nat) (env env2 : Nat → ℚ × NetOutcome)
    (order order2 : List (Fin n)) (hnd : order.Nodup) (hall : ∀ i, i ∈ order)
    (hnd2 : order2.Nodup) (hall2 : ∀ i, i ∈ order2) :
    ((run_stress_test b e n W m p a d env order).2.length = n
      ∧ ((run_stress_test b e n W m p a d env order).2.map
          fun r => r.request_id).Nodup
      ∧ ∀ k, (k ∈ (run_stress_test b e n W m p a d env order).2.map
          fun r => r.request_id) ↔ 1 ≤ k ∧ k ≤ n)
    ∧ ((cli_run_stress_test u n W2 env2 order2).length = n
      ∧ ((cli_run_stress_test u n W2 env2 order2).map
          fun r => r.request_id).Nodup
      ∧ ∀ k, (k ∈ (cli_run_stress_test u n W2 env2 order2).map
          fun r => r.request_id) ↔ 1 ≤ k ∧ k ≤ n)
    ∧ (interSubmissionTrace n d).filterMap Event.submitId =
        (List.range n).map fun i => i + 1 := by
  have hids : ((run_stress_test b e n W m p a d env order).2.map
      fun r => r.request_id) = order.map fun i => i.val + 1 := by
    simp [run_stress_test, List.map_map, Function.comp]
  have hids2 : ((cli_run_stress_test u n W2 env2 order2).map
      fun r => r.request_id) = order2.map fun i => i.val + 1 := by
    simp [cli_run_stress_test, List.map_map, Function.comp]
  refine ⟨⟨?_, ?_, ?_⟩, ⟨?_, ?_, ?_⟩, interSubmissionTrace_submitIds n d⟩
  · simp [run_stress_test, order_length order hnd hall]
  · rw [hids]
    exact order_ids_nodup order hnd
  · intro k
    rw [hids]
    exact order_ids_mem order hall k
  · simp [cli_run_stress_test, order_length order2 hnd2 hall2]
  · rw [hids2]
    exact order_ids_nodup order2 hnd2
  · intro k
    rw [hids2]
    exact order_ids_mem order2 hall2 k

/-- Witness for C5 with n = 2 and the reversed completion order. -/
theorem C5_completed_run_ids_witness :
    (([1, 0] : List (Fin 2)).Nodup ∧ ∀ i, i ∈ ([1, 0] : List (Fin 2)))
    ∧ (run_stress_test "http://localhost:8000" "/api/v2/pages/" 2 5 "GET" none none 0
        (fun _ => (0, .resp 200 [])) [1, 0]).2.length = 2 :=
  ⟨⟨by decide, by decide⟩,
    (C5_completed_run_ids "http://localhost:8000" "/api/v2/pages/" "u" "GET" 2 5 5
      none none 0 (fun _ => (0, .resp 200 [])) (fun _ => (0, .resp 200 []))
      [1, 0] [1, 0] (by decide) (by decide) (by decide) (by decide)).1.1⟩

/-- C7: with a positive delay `d` and `n ≥ 1` requests, the submission
loop performs exactly `n - 1` sleeps, and its trace is the first
submission followed by one (sleep d, submit) pair per remaining request —
one sleep immediately before each submission after the first.  The trace
of both dispatchers equals `interSubmissionTrace n d` for every worker
bound and every environment, so the cadence is independent of the
concurrency bound and of per-call completion times. -/
theorem C7_delay_cadence (n d : Nat) (hd : 0 < d) (hn : 1 ≤ n)
    (b e u m : String) (W W2 : Nat) (p a : Option (List Char))
    (env : Nat → ℚ × NetOutcome) (order : List (Fin n)) :
    ((interSubmissionTrace n d).countP Event.isSleep = n - 1)
    ∧ (interSubmissionTrace n d =
        Event.submit 1 ::
          (List.range (n - 1)).flatMap fun j => [Event.sleep d, Event.submit (j + 2)])
    ∧ (run_stress_test b e n W m p a d env order).1 = interSubmissionTrace n d
    ∧ (run_page_load_test u n W2 a d env order).1 = interSubmissionTrace n d := by
  obtain ⟨m2, rfl⟩ : ∃ m2, n = m2 + 1 := ⟨n - 1, by omega⟩
  refine ⟨?_, ?_, rfl, rfl⟩
  · rw [interSubmissionTrace_shape m2 d hd, List.countP_cons_of_neg, countP_pairs_sleep]
    · omega
    · simp [Event.isSleep]
  · simpa using interSubmissionTrace_shape m2 d hd

/-- Witness for C7 at n = 3 requests with a 50 ms delay. -/
theorem C7_delay_cadence_witness :
    ((0 : Nat) < 50 ∧ (1 : Nat) ≤ 3)
    ∧ (interSubmissionTrace 3 50).countP Event.isSleep = 2 :=
  ⟨⟨by decide, by decide⟩,
    (C7_delay_cadence 3 50 (by decide) (by decide) "b" "e" "u" "GET" 4 4 none none
      (fun _ => (0, .resp 200 [])) []).1⟩

/-- C3 counterexample: API mode, N = 1, method POST, payload text not
valid JSON (`json.loads` raises, so `request_payload = None` after the
sidebar error).  Pressing the start button with a configured base URL and
endpoint still runs the test: the dispatcher submits the one request —
here completing as HTTP 200 — and the run produces one RequestResult, not
zero, and never reaches an error state. -/
theorem C3_invalid_payload_counterexample :
    request_payload "API Endpoint" "POST" none = none
    ∧ startTest "API Endpoint" "http://localhost:8000" "/api/v2/pages/" "" 1 10 "POST"
        (request_payload "API Endpoint" "POST" none) none 0
        (fun _ => (0, .resp 200 [])) [0] =
      .ran [make_request "http://localhost:8000" "/api/v2/pages/" "POST" none none 1 0
        (.resp 200 [])] :=
  ⟨rfl, rfl⟩

/-- C3 amended: when the method is POST and the payload text is not valid
JSON, the module shows a sidebar error and sets `request_payload = None`;
a subsequently started run is not prevented — it dispatches all N
requests (with no JSON body) and produces N RequestResults. -/
theorem C3_invalid_payload_run_proceeds (b e page : String)
    (hb : b ≠ "") (he : e ≠ "") (n W d : Nat) (a : Option (List Char))
    (env : Nat → ℚ × NetOutcome) (order : List (Fin n))
    (hnd : order.Nodup) (hall : ∀ i, i ∈ order) :
    request_payload "API Endpoint" "POST" none = none
    ∧ startTest "API Endpoint" b e page n W "POST"
        (request_payload "API Endpoint" "POST" none) a d env order =
      .ran (run_stress_test b e n W "POST" none a d env order).2
    ∧ (run_stress_test b e n W "POST" none a d env order).2.length = n := by
  have h1 : ¬("API Endpoint" = "API Endpoint" ∧ (b = "" ∨ e = "")) := by
    rintro ⟨-, h | h⟩
    · exact hb h
    · exact he h
  have h2 : ¬(("API Endpoint" : String) = "Page Load" ∧ page = "") := by
    rintro ⟨h, -⟩
    exact absurd h (by decide)
  refine ⟨rfl, ?_, ?_⟩
  · unfold startTest
    rw [if_neg h1, if_neg h2, if_pos rfl]
    rfl
  · simp only [run_stress_test, List.length_map]
    exact order_length order hnd hall

/-- Witness for the amended C3 at N = 1. -/
theorem C3_invalid_payload_run_proceeds_witness :
    (("http://localhost:8000" : String) ≠ "" ∧ ([0] : List (Fin 1)).Nodup)
    ∧ (run_stress_test "http://localhost:8000" "/api/v2/pages/" 1 10 "POST" none none 0
        (fun _ => (0, .resp 200 [])) [0]).2.length = 1 :=
  ⟨⟨by decide, by decide⟩,
    (C3_invalid_payload_run_proceeds "http://localhost:8000" "/api/v2/pages/" "page"
      (by decide) (by decide) 1 10 0 none (fun _ => (0, .resp 200 [])) [0]
      (by decide) (by decide)).2.2⟩

end StressTester
